import Mathlib

set_option maxRecDepth 100000

/-!
A verification development for `pico_wifi.py` (ByzantineFailure/pico-wifi).

The Python source is shallowly embedded: pure helpers become Lean functions,
the imperative polling / accept loops become structural recursions over explicit
driver traces and connection data, and Python exceptions become `Except` values.
Strings are modelled as Lean `String` (the source works on single-byte text, a
limitation its own comments acknowledge).  Python string primitives used by the
source (`str.split`, `str.replace`, `int(...)`) are given explicit structural
models below, so that everything evaluates inside the kernel.
-/

/-! ## Models of the Python string primitives used by the source -/

/-- Whitespace stripped by Python's `int(...)` and split by `str.split()`
(ASCII subset: space, tab, newline, carriage return, vertical tab, form feed). -/
def isPyWs (c : Char) : Bool :=
  c = ' ' ∨ c = '\t' ∨ c = '\n' ∨ c = '\r' ∨ c = Char.ofNat 11 ∨ c = Char.ofNat 12

/-- Split a character list at every character satisfying `p`, keeping empty
pieces, as Python `str.split(sep)` does for a one-character separator. -/
def splitP (p : Char → Bool) : List Char → List (List Char)
  | [] => [[]]
  | c :: rest =>
    if p c then [] :: splitP p rest
    else
      match splitP p rest with
      | r :: rs => (c :: r) :: rs
      | [] => [[c]]

/-- Python `s.split(t)` for a one-character separator `t`. -/
def pySplitChar (t : Char) (s : String) : List String :=
  (splitP (fun c => c = t) s.data).map String.mk

/-- Split at every (leftmost, non-overlapping) occurrence of `"\r\n"`,
modelling Python `s.split("\r\n")`. -/
def splitCRLF : List Char → List (List Char)
  | '\r' :: '\n' :: rest => [] :: splitCRLF rest
  | c :: rest =>
    match splitCRLF rest with
    | r :: rs => (c :: r) :: rs
    | [] => [[c]]
  | [] => [[]]

/-- Python `s.split("\r\n")`. -/
def pySplitLines (s : String) : List String :=
  (splitCRLF s.data).map String.mk

/-- Split at every (leftmost, non-overlapping) occurrence of `"\r\n\r\n"`,
modelling Python `s.split("\r\n\r\n")`. -/
def splitCRLF2 : List Char → List (List Char)
  | '\r' :: '\n' :: '\r' :: '\n' :: rest => [] :: splitCRLF2 rest
  | c :: rest =>
    match splitCRLF2 rest with
    | r :: rs => (c :: r) :: rs
    | [] => [[c]]
  | [] => [[]]

/-- Python `s.split("\r\n\r\n")`. -/
def pySplitBlank (s : String) : List String :=
  (splitCRLF2 s.data).map String.mk

/-- Python `s.split()` (no argument): split on whitespace runs, dropping
empty pieces. -/
def pySplitWs (s : String) : List String :=
  ((splitP isPyWs s.data).filter (fun r => r ≠ [])).map String.mk

/-- Python `int(s)` (base 10): optional surrounding whitespace, an optional
sign, then a nonempty run of decimal digits; anything else raises `ValueError`
(modelled as `none`).  Digit-group underscores are not modelled. -/
def pyIntDec (s : String) : Option Int :=
  let l := ((s.data.dropWhile isPyWs).reverse.dropWhile isPyWs).reverse
  let sgn : Bool × List Char :=
    match l with
    | '+' :: rest => (false, rest)
    | '-' :: rest => (true, rest)
    | rest => (false, rest)
  if sgn.2 ≠ [] ∧ sgn.2.all Char.isDigit then
    let v : Nat := sgn.2.foldl (fun a c => 10 * a + (c.toNat - 48)) 0
    some (if sgn.1 then -(v : Int) else (v : Int))
  else none

/-- Value of one hexadecimal digit (`0-9`, `a-f`, `A-F`), if it is one. -/
def pyHexVal (c : Char) : Option Nat :=
  if c.isDigit then some (c.toNat - 48)
  else if 'a' ≤ c ∧ c ≤ 'f' then some (c.toNat - 87)
  else if 'A' ≤ c ∧ c ≤ 'F' then some (c.toNat - 55)
  else none

/-- Python `int(s, 16)` on a two-character string `⟨a, b⟩`: whitespace is
stripped, one sign is allowed, and at least one hex digit must remain.  So the
accepted two-character forms are two hex digits, a whitespace-padded single hex
digit, or a sign followed by a hex digit; everything else raises `ValueError`
(modelled as `none`).  A lone `0x` prefix has no digits and is an error. -/
def pyIntHex2 (a b : Char) : Option Int :=
  if isPyWs a then
    if isPyWs b then none else (pyHexVal b).map (fun v => (v : Int))
  else if isPyWs b then
    (pyHexVal a).map (fun v => (v : Int))
  else if a = '+' then (pyHexVal b).map (fun v => (v : Int))
  else if a = '-' then (pyHexVal b).map (fun v => -(v : Int))
  else
    match pyHexVal a, pyHexVal b with
    | some x, some y => some ((16 * x + y : Nat) : Int)
    | _, _ => none

/-- Python dict built by successive insertion: lookup returns the value of the
last insertion of the key (later duplicate keys overwrite earlier ones). -/
def dictLookup (d : List (String × String)) (k : String) : Option String :=
  (d.reverse.find? (fun p => p.1 = k)).map (fun p => p.2)

/-! ## `WifiCredentialsServer.__urlDecode` (src/pico_wifi.py lines 466-490) -/

/-- The `input.replace("+", " ")` step: a one-character `str.replace` is a
character-wise map. -/
def plusToSpace (c : Char) : Char := if c = '+' then ' ' else c

/-- The body of the `try: char = chr(int(hex, 16)) except ValueError` block on
the two characters following a `%`: Python `int(·, 16)` per `pyIntHex2`, then
`chr`, which raises `ValueError` on a negative argument (only reachable here
via a parsed `-` sign); both failures are caught and yield `none`. -/
def decodeHexPair (a b : Char) : Option Char :=
  match pyIntHex2 a b with
  | some v => if 0 ≤ v then some (Char.ofNat v.toNat) else none
  | none => none

/-- The scanning loop of `__urlDecode`: at a `%` with at least two following
characters (the source's `i + 2 < len(toDecode)`) try to decode them and
advance 3; on failure, or at a `%` with fewer than two characters left, emit
the character itself and advance 1; other characters are copied. -/
def scanDecode : List Char → List Char
  | [] => []
  | [c] => [c]
  | [c, a] => [c, a]
  | c :: a :: b :: rest =>
    if c = '%' then
      match decodeHexPair a b with
      | some ch => ch :: scanDecode rest
      | none => c :: scanDecode (a :: b :: rest)
    else c :: scanDecode (a :: b :: rest)

/-- `WifiCredentialsServer.__urlDecode`: replace `+` by a space, then run the
percent-decoding scan. -/
def urlDecode (input : String) : String :=
  String.mk (scanDecode (input.data.map plusToSpace))

/-! ## Spec-side decoders (for comparison with `urlDecode`)

The specification describes the decoder positionally ("substitute the decoded
character and advance 3 positions ... advance 1 position"), so the spec-side
decoders below walk an index over the character list.  They are parametrised
by the notion of "the two characters parse as a hexadecimal byte". -/

/-- Is `c` one of the hexadecimal digit characters `0-9`, `a-f`, `A-F`? -/
def isHexDigitChar (c : Char) : Bool :=
  c.isDigit ∨ ('a' ≤ c ∧ c ≤ 'f') ∨ ('A' ≤ c ∧ c ≤ 'F')

/-- Numeric value of a hexadecimal digit character (0 for non-digits). -/
def hexDigitVal (c : Char) : Nat :=
  if c.isDigit then c.toNat - 48
  else if 'a' ≤ c ∧ c ≤ 'f' then c.toNat - 87
  else if 'A' ≤ c ∧ c ≤ 'F' then c.toNat - 55
  else 0

/-- Modelled from the spec: "two more characters that parse as a hexadecimal
byte", read strictly as two hexadecimal digit characters. -/
def strictHexPair (a b : Char) : Option Char :=
  if isHexDigitChar a ∧ isHexDigitChar b then
    some (Char.ofNat (16 * hexDigitVal a + hexDigitVal b))
  else none

/-- Modelled from the spec: the positional scan of the percent-decoding
algorithm ("on `%` followed by two more characters that `parse` ... substitute
the decoded character and advance 3 positions; otherwise pass the `%` through
literally and advance 1 position; all other characters pass through
unchanged").  `fuel` bounds the number of steps; each step advances the index
by at least 1, so `l.length` steps always suffice. -/
def specDecodeStep (parse : Char → Char → Option Char) (l : List Char) :
    Nat → Nat → List Char
  | _, 0 => []
  | i, fuel + 1 =>
    if i < l.length then
      if l.getD i ' ' = '%' ∧ i + 2 < l.length then
        match parse (l.getD (i + 1) ' ') (l.getD (i + 2) ' ') with
        | some ch => ch :: specDecodeStep parse l (i + 3) fuel
        | none => l.getD i ' ' :: specDecodeStep parse l (i + 1) fuel
      else l.getD i ' ' :: specDecodeStep parse l (i + 1) fuel
    else []

/-- Modelled from the spec: "replace `+` with space", then the positional
percent-decoding scan with the given hex-pair parser. -/
def specDecodeWith (parse : Char → Char → Option Char) (s : String) : String :=
  let toDecode := s.data.map plusToSpace
  String.mk (specDecodeStep parse toDecode 0 toDecode.length)

/-! ## The standard form encoder (spec side, for the round-trip claim) -/

/-- Uppercase hexadecimal digit character for `n < 16`. -/
def toHexDigit (n : Nat) : Char :=
  if n < 10 then Char.ofNat (48 + n) else Char.ofNat (55 + n)

/-- Modelled from the spec: the standard `application/x-www-form-urlencoded`
percent-encoder for one character — space becomes `+`, alphanumerics and
`*`, `-`, `.`, `_` pass through, everything else becomes `%XX`. -/
def encodeChar (c : Char) : List Char :=
  if c = ' ' then ['+']
  else if c.isAlphanum ∨ c = '*' ∨ c = '-' ∨ c = '.' ∨ c = '_' then [c]
  else ['%', toHexDigit (c.toNat / 16), toHexDigit (c.toNat % 16)]

/-- Modelled from the spec: the standard form percent-encoder on a string. -/
def formEncode (s : String) : String :=
  String.mk ((s.data.map encodeChar).flatten)

/-- One encoded unit after the decoder's `+`-to-space replacement has been
applied; the building block of the round-trip argument. -/
def encUnit (c : Char) : List Char := (encodeChar c).map plusToSpace

/-- Per-character round-trip fact: after the `+` replacement, an encoded
printable-ASCII character is either itself (and not `%`), or a `%XX` triple
that `decodeHexPair` maps back to the character. -/
def encGood (c : Char) : Prop :=
  (encUnit c = [c] ∧ c ≠ '%') ∨
  (encUnit c = ['%', toHexDigit (c.toNat / 16), toHexDigit (c.toNat % 16)] ∧
    decodeHexPair (toHexDigit (c.toNat / 16)) (toHexDigit (c.toNat % 16)) = some c)

instance (c : Char) : Decidable (encGood c) := by
  unfold encGood; infer_instance

/-! ## `WifiCredentials` (src/pico_wifi.py lines 230-239) -/

/-- The credentials record: both fields validated non-empty at construction. -/
structure WifiCredentials where
  ssid : String
  password : String
  filepath : Option String
deriving DecidableEq

/-- `WifiCredentials.__init__`: `None` (modelled as `none`) or an empty string
for either field raises at construction time; the checks run in source order
(ssid first, then password). -/
def mkWifiCredentials (ssid password : Option String) (filepath : Option String) :
    Except String WifiCredentials :=
  match ssid with
  | none => Except.error "ssid cannot be None or empty string"
  | some s =>
    if s = "" then Except.error "ssid cannot be None or empty string"
    else
      match password with
      | none => Except.error "password cannot be None or empty string"
      | some p =>
        if p = "" then Except.error "password cannot be None or empty string"
        else Except.ok ⟨s, p, filepath⟩

/-! ## `WifiCredentialsServer` (src/pico_wifi.py lines 375-532)

A connection is modelled as the list of chunks its successive `recv(1024)`
calls return; the strings a handler would `send` are collected in a list.
Python runtime exceptions escaping the handler are modelled as `Except.error`:
`indexError` for a failing `[...]` subscript, `valueError` for a failing
`int(...)`, `keyError` for a failing dict subscript, `hang` for a `recv` that
would block forever on an exhausted connection, and `exception` for an
explicit `raise`. -/

inductive PyErr where
  | indexError
  | valueError
  | keyError
  | hang
  | exception (msg : String)
deriving DecidableEq

instance {ε α : Type} [DecidableEq ε] [DecidableEq α] : DecidableEq (Except ε α) :=
  fun a b =>
    match a, b with
    | Except.ok x, Except.ok y =>
      if h : x = y then isTrue (by rw [h])
      else isFalse (by intro hc; cases hc; exact h rfl)
    | Except.error x, Except.error y =>
      if h : x = y then isTrue (by rw [h])
      else isFalse (by intro hc; cases hc; exact h rfl)
    | Except.ok _, Except.error _ => isFalse (by intro h; cases h)
    | Except.error _, Except.ok _ => isFalse (by intro h; cases h)

/-- The fixed `200 OK` response header string sent by
`__respondWithInputPage` and by `__parseCredentials` on success. -/
def ok200 : String := "HTTP/1.0 200 OK\r\nContent-type: text/html\r\n\r\n"

/-- The module-level `ERROR_PAGE` template (with `%CONTENT%` placeholder). -/
def ERROR_PAGE : String :=
  "<!DOCTYPE html>\n<html>\n  <head><title>Error</title></head>\n  <body>\n    <h1>Error submitting credentials</h1>\n    <p>Press back to try again</p>\n    <h2>Error:</h2>\n    <p>%CONTENT%</p>\n  </body>\n</html>"

/-- Replace every (leftmost, non-overlapping) occurrence of the nine-character
placeholder `%CONTENT%` by `msg`, modelling `error_page.replace("%CONTENT%", msg)`. -/
def replaceContentL (msg : List Char) : List Char → List Char
  | '%' :: 'C' :: 'O' :: 'N' :: 'T' :: 'E' :: 'N' :: 'T' :: '%' :: rest =>
    msg ++ replaceContentL msg rest
  | c :: rest => c :: replaceContentL msg rest
  | [] => []

/-- `error_page.replace("%CONTENT%", msg)` on strings. -/
def replaceContent (page msg : String) : String :=
  String.mk (replaceContentL msg.data page.data)

/-- `WifiCredentialsServer.__sendBadRequest`: the single string it sends.  With
a message, the rendered error page and a `Content-Length` header sized to it;
without one, an empty body and no length header. -/
def badRequestResponse (errPage : String) (errorMessage : Option String) : String :=
  match errorMessage with
  | some msg =>
    let page := replaceContent errPage msg
    "HTTP/1.0 400 Bad Request\r\nContent-type: text/html; charset=\"utf-8\"" ++
      "\r\nContent-Length:" ++ toString page.length ++ "\r\n\r\n" ++ page
  | none =>
    "HTTP/1.0 400 Bad Request\r\nContent-type: text/html; charset=\"utf-8\"" ++
      "\r\n\r\n"

/-- The four distinct `__parseCredentials` rejection messages, in check
order (the third message's spelling follows the source). -/
def MSG_EMPTY_BODY : String := "Password and SSID cannot be empty"

/-- Rejection message of the missing-key check. -/
def MSG_MISSING : String := "Missing either password or ssid query param in submisssion"

/-- Rejection message of the empty-password check. -/
def MSG_EMPTY_PASSWORD : String := "Password cannot be empty"

/-- Rejection message of the empty-ssid check. -/
def MSG_EMPTY_SSID : String := "SSID cannot be empty"

/-- The form-decoding step of `__parseCredentials`:
`splitParams = [param.split("=") for param in postBody.split("&")]` and the
dict comprehension `{urlDecode(param[0]): urlDecode(param[1]) for ...}`.
A parameter token without `=` splits into a single piece, so the `param[1]`
subscript raises `IndexError`.  Insertion order with last-wins duplicates is
modelled by appending (see `dictLookup`). -/
def decodeParams (postBody : String) : Except PyErr (List (String × String)) :=
  let splitParams := (pySplitChar '&' postBody).map (fun p => pySplitChar '=' p)
  splitParams.foldlM
    (fun d param =>
      match param with
      | k :: v :: _ => Except.ok (d ++ [(urlDecode k, urlDecode v)])
      | _ => Except.error PyErr.indexError)
    ([] : List (String × String))

/-- `WifiCredentialsServer.__parseCredentials`: returns the strings sent on
the connection and the parsed parameter map (`none` models returning `None`). -/
def parseCredentials (errPage : String) (postBody : String) :
    Except PyErr (List String × Option (List (String × String))) :=
  if postBody = "" then
    Except.ok ([badRequestResponse errPage (some MSG_EMPTY_BODY)], none)
  else
    match decodeParams postBody with
    | Except.error e => Except.error e
    | Except.ok params =>
      if dictLookup params "password" = none ∨ dictLookup params "ssid" = none then
        Except.ok ([badRequestResponse errPage (some MSG_MISSING)], none)
      else if dictLookup params "password" = some "" then
        Except.ok ([badRequestResponse errPage (some MSG_EMPTY_PASSWORD)], none)
      else if dictLookup params "ssid" = some "" then
        Except.ok ([badRequestResponse errPage (some MSG_EMPTY_SSID)], none)
      else
        Except.ok ([ok200], some params)

/-- The parsed request line and header fields.  The source stores the request
line under the dict keys `"method"`, `"path"`, `"protocol"` (overwriting any
header of the same name); since the dict is only ever read at those three keys
and at `"Content-Length"`, carrying the request line in named fields is
observationally the same. -/
structure ReqHeaders where
  method : String
  path : String
  protocol : String
  fields : List (String × String)
deriving DecidableEq

/-- `WifiCredentialsServer.__getRequestHeaders`: split the header block into
CRLF lines, split each line at every `:` (the naive split the spec flags), take
`[0][0]` as the request line and whitespace-split it.  The dict comprehension
runs first (a later line without `:` raises `IndexError` there), then the
request-line subscripts `[0]`, `[1]`, `[2]` (fewer than three tokens raises
`IndexError`). -/
def getRequestHeaders (headerBlock : String) : Except PyErr ReqHeaders :=
  let splitHeaders := (pySplitLines headerBlock).map (fun h => pySplitChar ':' h)
  let requestLine := pySplitWs ((splitHeaders.headD []).headD "")
  match
    (splitHeaders.drop 1).foldlM
      (fun d h =>
        match h with
        | k :: v :: _ => Except.ok (d ++ [(k, v)])
        | _ => Except.error PyErr.indexError)
      ([] : List (String × String)) with
  | Except.error e => Except.error e
  | Except.ok fields =>
    match requestLine with
    | m :: p :: pr :: _ => Except.ok ⟨m, p, pr, fields⟩
    | _ => Except.error PyErr.indexError

/-- The `while len(body) < contentLength` accumulation loop of
`__getRequestBody`: keep appending received chunks until the body reaches the
declared length.  An exhausted connection (Python `recv` blocking forever, or
looping on empty reads) is modelled as `PyErr.hang`. -/
def accumulateBody (contentLength : Int) : String → List String → Except PyErr String
  | body, [] =>
    if (body.length : Int) < contentLength then Except.error PyErr.hang
    else Except.ok body
  | body, c :: cs =>
    if (body.length : Int) < contentLength then accumulateBody contentLength (body ++ c) cs
    else Except.ok body

/-- `WifiCredentialsServer.__getRequestBody`: the declared length is
`int(headers["Content-Length"])` when that header is present (a non-numeric
value raises `ValueError`) and `0` otherwise; then the accumulation loop. -/
def getRequestBody (fields : List (String × String)) (requestBody : String)
    (chunks : List String) : Except PyErr String :=
  match dictLookup fields "Content-Length" with
  | some v =>
    match pyIntDec v with
    | some n => accumulateBody n requestBody chunks
    | none => Except.error PyErr.valueError
  | none => accumulateBody 0 requestBody chunks

/-- The per-connection read-and-parse prefix of `gatherCredentials`: receive
the first chunk, split at the blank line, parse headers from piece `[0]`, then
read the body starting from piece `[1]` (absent when the request has no
`\r\n\r\n`, raising `IndexError`).  The source parses headers before
subscripting `[1]`, and this order is kept. -/
def parseRequest (chunks : List String) : Except PyErr (ReqHeaders × String) :=
  let request := chunks.headD ""
  let splitRequest := pySplitBlank request
  match getRequestHeaders (splitRequest.headD "") with
  | Except.error e => Except.error e
  | Except.ok headers =>
    match splitRequest.drop 1 with
    | [] => Except.error PyErr.indexError
    | initialBody :: _ =>
      match getRequestBody headers.fields initialBody (chunks.drop 1) with
      | Except.error e => Except.error e
      | Except.ok body => Except.ok (headers, body)

/-- One accept/respond cycle of `gatherCredentials`: parse the request and
dispatch on the method — `POST` to `__parseCredentials`, `GET` to the input
page, anything else to a `400` naming the method. -/
def handleConnection (page errPage : String) (chunks : List String) :
    Except PyErr (List String × Option (List (String × String))) :=
  match parseRequest chunks with
  | Except.error e => Except.error e
  | Except.ok (headers, body) =>
    if headers.method = "POST" then parseCredentials errPage body
    else if headers.method = "GET" then Except.ok ([ok200, page], none)
    else
      Except.ok
        ([badRequestResponse errPage
            (some ("Got unsupported HTTP method: " ++ headers.method))], none)

/-- `WifiCredentialsServer.gatherCredentials`: accept connections (here: walk
the list of incoming connections) until a cycle yields credentials, then build
the `WifiCredentials` record from the parsed map.  The result pairs the sends
of each processed connection with the credentials; `none` credentials means
every supplied connection was answered and the loop is still waiting
(`accept` would block). -/
def gatherCredentials (page errPage : String) :
    List (List String) → Except PyErr (List (List String) × Option WifiCredentials)
  | [] => Except.ok ([], none)
  | c :: cs =>
    match handleConnection page errPage c with
    | Except.error e => Except.error e
    | Except.ok (sends, none) =>
      match gatherCredentials page errPage cs with
      | Except.error e => Except.error e
      | Except.ok (more, r) => Except.ok (sends :: more, r)
    | Except.ok (sends, some params) =>
      match dictLookup params "ssid", dictLookup params "password" with
      | some s, some p =>
        match mkWifiCredentials (some s) (some p) none with
        | Except.ok cred => Except.ok ([sends], some cred)
        | Except.error m => Except.error (PyErr.exception m)
      | _, _ => Except.error PyErr.keyError

/-- Concatenation of a list of strings (used to state body reassembly). -/
def joinAll (l : List String) : String := l.foldr (fun a b => a ++ b) ""

/-- The malformed-request kinds named by the error-handling spec, at the point
where a request has parsed: an unsupported method, a `POST` with an empty
body, or a `POST` whose decoded form map is missing `password` or `ssid` or
maps one of them to the empty string. -/
def malformedKind (headers : ReqHeaders) (body : String) : Prop :=
  (headers.method ≠ "POST" ∧ headers.method ≠ "GET")
  ∨ (headers.method = "POST" ∧ body = "")
  ∨ (headers.method = "POST" ∧ ∃ d, decodeParams body = Except.ok d ∧
      (dictLookup d "password" = none ∨ dictLookup d "ssid" = none ∨
       dictLookup d "password" = some "" ∨ dictLookup d "ssid" = some ""))

/-! ## `PicoWifi` connection control (src/pico_wifi.py lines 58-152)

The wireless driver is modelled as a trace: `conn k` is what
`self.connectedToWifi` returns and `stat k` what `self.__wifi_connection.status()`
returns when read with the loop counter `timeout` at `k`.  The status constants
are those of MicroPython's `network` module on the Pico W (cyw43). -/

def STAT_GOT_IP : Int := 3

def STAT_WRONG_PASSWORD : Int := -3

def STAT_NO_AP_FOUND : Int := -2

/-- The five exception kinds raised by the connection path; `unknownFailure`
carries the raw driver status code embedded in the source's message string. -/
inductive ConnErr where
  | noCredentials
  | incorrectPassword
  | noAccessPointFound
  | unknownFailure (status : Int)
deriving DecidableEq

/-- `PicoWifi.__checkWifiConnectionStatus`: missing credentials raise first;
`STAT_GOT_IP` is success; `STAT_WRONG_PASSWORD` and `STAT_NO_AP_FOUND` raise
their dedicated exceptions whether or not `failIfNotConnected` is set; any
other status raises `UnknownWifiConnectionFailureException` (carrying the
status) only when `failIfNotConnected` is set. -/
def checkWifiConnectionStatus (hasCreds : Bool) (status : Int)
    (failIfNotConnected : Bool) : Except ConnErr Unit :=
  if !hasCreds then Except.error ConnErr.noCredentials
  else if status = STAT_GOT_IP then Except.ok ()
  else if status = STAT_WRONG_PASSWORD then Except.error ConnErr.incorrectPassword
  else if status = STAT_NO_AP_FOUND then Except.error ConnErr.noAccessPointFound
  else if failIfNotConnected then Except.error (ConnErr.unknownFailure status)
  else Except.ok ()

/-- The polling loop of `connectToWifi`
(`while not self.connectedToWifi and timeout < self.connection_timeout`):
`t` is the current value of the `timeout` counter and `fuel` the remaining
iterations `connection_timeout - t`, so the loop condition `t < T` is
`fuel > 0`.  Each iteration checks the status eagerly (with
`failIfNotConnected = false`), increments the counter and sleeps one second
(timing not modelled).  Raised exceptions carry the counter value at which
they were raised. -/
def pollLoop (conn : Nat → Bool) (stat : Nat → Int) (t : Nat) :
    Nat → Except (Nat × ConnErr) Nat
  | 0 => Except.ok t
  | fuel + 1 =>
    if conn t then Except.ok t
    else
      match checkWifiConnectionStatus true (stat t) false with
      | Except.error e => Except.error (t, e)
      | Except.ok _ => pollLoop conn stat (t + 1) fuel

/-- `PicoWifi.connectToWifi`: raise `NoWifiCredentialsException` when no
credentials are stored; otherwise run the polling loop from `timeout = 0` and
finish with a final status check with `failIfNotConnected = true`.  Success
returns the final counter value; an exception is paired with the counter value
at which it was raised. -/
def connectToWifi (hasCreds : Bool) (conn : Nat → Bool) (stat : Nat → Int)
    (T : Nat) : Except (Nat × ConnErr) Nat :=
  if !hasCreds then Except.error (0, ConnErr.noCredentials)
  else
    match pollLoop conn stat 0 T with
    | Except.error e => Except.error e
    | Except.ok t =>
      match checkWifiConnectionStatus true (stat t) true with
      | Except.error e => Except.error (t, e)
      | Except.ok _ => Except.ok t

/-- Which connection-failure kinds the `try/except` in `PicoWifi.init`
catches: its clauses name `NoWifiCredentialsException`,
`IncorrectWifiPasswordException` and `UnknownWifiConnectionFailureException`.
All four exception classes derive directly from `Exception`, so
`NoAccessPointFoundException` matches none of the clauses. -/
def caughtByInit : ConnErr → Bool
  | ConnErr.noCredentials => true
  | ConnErr.incorrectPassword => true
  | ConnErr.unknownFailure _ => true
  | ConnErr.noAccessPointFound => false

/-- Outcome of the `init` control loop under bounded observation. -/
inductive InitOutcome where
  | connected (attempt : Nat)
  | escaped (attempt : Nat) (e : ConnErr)
  | running
deriving DecidableEq

/-- `PicoWifi.init`: `attempts n` abstracts the outcome of the `n`-th
`connectToWifi()` call (credentials change between attempts via
`gatherCredentials`, so each attempt has its own outcome).  A successful
attempt returns; a caught exception leads to `startAccessPoint()` and
re-provisioning and the loop repeats; an uncaught exception propagates out of
`init` (`escaped`).  `fuel` bounds the number of observed iterations of the
unbounded `while True`. -/
def initLoop (attempts : Nat → Except (Nat × ConnErr) Nat) :
    Nat → Nat → InitOutcome
  | _, 0 => InitOutcome.running
  | n, fuel + 1 =>
    match attempts n with
    | Except.ok _ => InitOutcome.connected n
    | Except.error (_, e) =>
      if caughtByInit e then initLoop attempts (n + 1) fuel
      else InitOutcome.escaped n e

/-! ## Helper lemmas -/

/-- A status that is neither the wrong-password nor the no-access-point code
passes the non-final check (`failIfNotConnected = false`) without raising. -/
theorem checkStatus_noFail_ok (s : Int) (h1 : s ≠ STAT_WRONG_PASSWORD)
    (h2 : s ≠ STAT_NO_AP_FOUND) :
    checkWifiConnectionStatus true s false = Except.ok () := by
  by_cases hg : s = STAT_GOT_IP
  · simp [checkWifiConnectionStatus, hg]
  · simp [checkWifiConnectionStatus, hg, h1, h2]

/-- A status that is none of the three recognised codes fails the final check
(`failIfNotConnected = true`) with the unknown-failure exception carrying it. -/
theorem checkStatus_final_unknown (s : Int) (h0 : s ≠ STAT_GOT_IP)
    (h1 : s ≠ STAT_WRONG_PASSWORD) (h2 : s ≠ STAT_NO_AP_FOUND) :
    checkWifiConnectionStatus true s true =
      Except.error (ConnErr.unknownFailure s) := by
  simp [checkWifiConnectionStatus, h0, h1, h2]

/-- If the connection stays down, no earlier iteration raises, and the check
raises `e` at relative iteration `k < fuel`, then the polling loop stops with
`e` at absolute iteration `t + k`. -/
theorem pollLoop_reaches_error (conn : Nat → Bool) (stat : Nat → Int)
    (e : ConnErr) :
    ∀ k t fuel, k < fuel →
      (∀ j, j ≤ k → conn (t + j) = false) →
      (∀ j, j < k → checkWifiConnectionStatus true (stat (t + j)) false = Except.ok ()) →
      checkWifiConnectionStatus true (stat (t + k)) false = Except.error e →
      pollLoop conn stat t fuel = Except.error (t + k, e) := by
  intro k
  induction k with
  | zero =>
    intro t fuel hk hconn _ herr
    match fuel, hk with
    | fuel + 1, _ =>
      have h0 : conn t = false := hconn 0 (Nat.le_refl 0)
      have herr0 : checkWifiConnectionStatus true (stat t) false = Except.error e := herr
      simp [pollLoop, h0, herr0]
  | succ k ih =>
    intro t fuel hk hconn hok herr
    match fuel, hk with
    | fuel + 1, hk =>
      have h0 : conn t = false := hconn 0 (Nat.zero_le _)
      have hc0 : checkWifiConnectionStatus true (stat t) false = Except.ok () :=
        hok 0 (Nat.succ_pos k)
      have hstep : pollLoop conn stat t (fuel + 1) = pollLoop conn stat (t + 1) fuel := by
        simp [pollLoop, h0, hc0]
      have hconn2 : ∀ j, j ≤ k → conn (t + 1 + j) = false := by
        intro j hj
        have := hconn (j + 1) (Nat.succ_le_succ hj)
        rwa [show t + (j + 1) = t + 1 + j by omega] at this
      have hok2 : ∀ j, j < k →
          checkWifiConnectionStatus true (stat (t + 1 + j)) false = Except.ok () := by
        intro j hj
        have := hok (j + 1) (Nat.succ_lt_succ hj)
        rwa [show t + (j + 1) = t + 1 + j by omega] at this
      have herr2 : checkWifiConnectionStatus true (stat (t + 1 + k)) false =
          Except.error e := by
        rwa [show t + (k + 1) = t + 1 + k by omega] at herr
      have := ih (t + 1) fuel (Nat.lt_of_succ_lt_succ hk) hconn2 hok2 herr2
      rw [hstep, this, show t + 1 + k = t + (k + 1) by omega]

/-- If the connection never comes up and no iteration raises, the polling loop
runs its fuel out and returns the final counter value. -/
theorem pollLoop_runs_out (conn : Nat → Bool) (stat : Nat → Int)
    (hconn : ∀ j, conn j = false)
    (hok : ∀ j, checkWifiConnectionStatus true (stat j) false = Except.ok ()) :
    ∀ fuel t, pollLoop conn stat t fuel = Except.ok (t + fuel) := by
  intro fuel
  induction fuel with
  | zero => intro t; simp [pollLoop]
  | succ fuel ih =>
    intro t
    have := ih (t + 1)
    simp [pollLoop, hconn t, hok t, this]
    omega

/-! ## Claim theorems -/

/-- Claim C3: if the polling loop of `connectToWifi` is still running at
iteration `k < connection_timeout` (the connection has not come up and no
earlier iteration saw a terminal status) and the driver reports the
bad-password status at iteration `k`, then `connectToWifi` raises
`IncorrectWifiPasswordException` at iteration `k`, without waiting out the
remaining timeout iterations. -/
theorem connect_bad_password_eager (conn : Nat → Bool) (stat : Nat → Int)
    (T k : Nat) (hkT : k < T)
    (hconn : ∀ j, j ≤ k → conn j = false)
    (hpre : ∀ j, j < k → stat j ≠ STAT_WRONG_PASSWORD ∧ stat j ≠ STAT_NO_AP_FOUND)
    (hbad : stat k = STAT_WRONG_PASSWORD) :
    connectToWifi true conn stat T = Except.error (k, ConnErr.incorrectPassword) := by
  have herr : checkWifiConnectionStatus true (stat (0 + k)) false =
      Except.error ConnErr.incorrectPassword := by
    rw [Nat.zero_add, hbad]; decide
  have hok : ∀ j, j < k →
      checkWifiConnectionStatus true (stat (0 + j)) false = Except.ok () := by
    intro j hj
    rw [Nat.zero_add]
    exact checkStatus_noFail_ok _ (hpre j hj).1 (hpre j hj).2
  have hc : ∀ j, j ≤ k → conn (0 + j) = false := by
    intro j hj; rw [Nat.zero_add]; exact hconn j hj
  have hp := pollLoop_reaches_error conn stat ConnErr.incorrectPassword k 0 T hkT hc hok herr
  rw [Nat.zero_add] at hp
  simp [connectToWifi, hp]

/-- Witness for C3 at the spec's own scenario: bad password reported at poll
iteration 2 of a 30-iteration timeout raises at iteration 2. -/
theorem connect_bad_password_eager_witness :
    connectToWifi true (fun _ => false)
        (fun j => if j = 2 then STAT_WRONG_PASSWORD else 1) 30 =
      Except.error (2, ConnErr.incorrectPassword) :=
  connect_bad_password_eager _ _ 30 2 (by decide) (fun _ _ => rfl) (by decide) (by decide)

/-- Claim C10: the no-access-point-found status is likewise detected eagerly:
reported at iteration `k` before the timeout, `connectToWifi` raises
`NoAccessPointFoundException` at iteration `k` rather than waiting out the
remaining iterations. -/
theorem connect_no_ap_eager (conn : Nat → Bool) (stat : Nat → Int)
    (T k : Nat) (hkT : k < T)
    (hconn : ∀ j, j ≤ k → conn j = false)
    (hpre : ∀ j, j < k → stat j ≠ STAT_WRONG_PASSWORD ∧ stat j ≠ STAT_NO_AP_FOUND)
    (hbad : stat k = STAT_NO_AP_FOUND) :
    connectToWifi true conn stat T = Except.error (k, ConnErr.noAccessPointFound) := by
  have herr : checkWifiConnectionStatus true (stat (0 + k)) false =
      Except.error ConnErr.noAccessPointFound := by
    rw [Nat.zero_add, hbad]; decide
  have hok : ∀ j, j < k →
      checkWifiConnectionStatus true (stat (0 + j)) false = Except.ok () := by
    intro j hj
    rw [Nat.zero_add]
    exact checkStatus_noFail_ok _ (hpre j hj).1 (hpre j hj).2
  have hc : ∀ j, j ≤ k → conn (0 + j) = false := by
    intro j hj; rw [Nat.zero_add]; exact hconn j hj
  have hp := pollLoop_reaches_error conn stat ConnErr.noAccessPointFound k 0 T hkT hc hok herr
  rw [Nat.zero_add] at hp
  simp [connectToWifi, hp]

/-- Witness for C10: no-access-point-found reported at poll iteration 2 of a
30-iteration timeout raises at iteration 2. -/
theorem connect_no_ap_eager_witness :
    connectToWifi true (fun _ => false)
        (fun j => if j = 2 then STAT_NO_AP_FOUND else 1) 30 =
      Except.error (2, ConnErr.noAccessPointFound) :=
  connect_no_ap_eager _ _ 30 2 (by decide) (fun _ _ => rfl) (by decide) (by decide)

/-- Claim C4: if the driver never reports a terminal status (never
bad-password, never no-access-point-found, never address-obtained) and never
associates, `connectToWifi` performs exactly `T = connection_timeout` polling
iterations and only then raises `UnknownWifiConnectionFailureException`, whose
payload carries the raw driver status code that the final check read. -/
theorem connect_timeout_unknown (conn : Nat → Bool) (stat : Nat → Int) (T : Nat)
    (hconn : ∀ j, conn j = false)
    (hterm : ∀ j, stat j ≠ STAT_GOT_IP ∧ stat j ≠ STAT_WRONG_PASSWORD ∧
      stat j ≠ STAT_NO_AP_FOUND) :
    connectToWifi true conn stat T =
      Except.error (T, ConnErr.unknownFailure (stat T)) := by
  have hok : ∀ j, checkWifiConnectionStatus true (stat j) false = Except.ok () :=
    fun j => checkStatus_noFail_ok _ (hterm j).2.1 (hterm j).2.2
  have hp := pollLoop_runs_out conn stat hconn hok T 0
  rw [Nat.zero_add] at hp
  have hfin := checkStatus_final_unknown (stat T) (hterm T).1 (hterm T).2.1 (hterm T).2.2
  simp [connectToWifi, hp, hfin]

/-- Witness for C4 at the default timeout 30: a driver stuck on the
non-terminal status 1 (connecting) yields the unknown-failure exception at
iteration 30, carrying the raw status 1. -/
theorem connect_timeout_unknown_witness :
    connectToWifi true (fun _ => false) (fun _ => 1) 30 =
      Except.error (30, ConnErr.unknownFailure 1) :=
  connect_timeout_unknown _ _ 30 (fun _ => rfl)
    (fun _ => ⟨by decide, by decide, by decide⟩)

/-- Claim C1 (code bug): the `try/except` of `PicoWifi.init` catches only
`NoWifiCredentialsException`, `IncorrectWifiPasswordException` and
`UnknownWifiConnectionFailureException` — `NoAccessPointFoundException`
escapes the loop instead of being converted into access-point re-provisioning.
With a driver that reports `STAT_NO_AP_FOUND` during polling, the very first
attempt escapes `init`; by contrast a wrong-password attempt is caught and the
loop proceeds to the next attempt. -/
theorem init_uncaught_no_ap :
    initLoop (fun _ => connectToWifi true (fun _ => false) (fun _ => STAT_NO_AP_FOUND) 30) 0 5 =
        InitOutcome.escaped 0 ConnErr.noAccessPointFound
      ∧ caughtByInit ConnErr.noCredentials = true
      ∧ caughtByInit ConnErr.incorrectPassword = true
      ∧ (∀ c : Int, caughtByInit (ConnErr.unknownFailure c) = true)
      ∧ caughtByInit ConnErr.noAccessPointFound = false
      ∧ initLoop (fun n => if n = 0
            then connectToWifi true (fun _ => false) (fun _ => STAT_WRONG_PASSWORD) 30
            else Except.ok 0) 0 5 = InitOutcome.connected 1 :=
  ⟨by decide, rfl, rfl, fun _ => rfl, rfl, by decide⟩

/-- Claim C8: `WifiCredentials` construction succeeds exactly when both fields
are present and non-empty; an empty or absent (`None`) field makes the
constructor raise, at construction time. -/
theorem credentials_construction_iff (ssid password filepath : Option String) :
    (∃ c, mkWifiCredentials ssid password filepath = Except.ok c) ↔
      ((∃ s, ssid = some s ∧ s ≠ "") ∧ (∃ p, password = some p ∧ p ≠ "")) := by
  constructor
  · rintro ⟨c, hc⟩
    cases ssid with
    | none => simp [mkWifiCredentials] at hc
    | some s =>
      by_cases hs : s = ""
      · simp [mkWifiCredentials, hs] at hc
      · cases password with
        | none => simp [mkWifiCredentials, hs] at hc
        | some p =>
          by_cases hp : p = ""
          · simp [mkWifiCredentials, hs, hp] at hc
          · exact ⟨⟨s, rfl, hs⟩, ⟨p, rfl, hp⟩⟩
  · rintro ⟨⟨s, rfl, hs⟩, ⟨p, rfl, hp⟩⟩
    exact ⟨⟨s, p, filepath⟩, by simp [mkWifiCredentials, hs, hp]⟩

/-- Claim C7: the declared body length comes from the `Content-Length` header
(defaulting to zero when absent, and parsed by Python `int`), and whenever the
accumulation loop returns a body, that body is the initial bytes followed by a
prefix of the subsequently received chunks, it has reached the declared
length, and before every chunk that was consumed the accumulated body was
still short of the declared length. -/
theorem request_body_reassembly :
    (∀ fields init chunks, dictLookup fields "Content-Length" = none →
        getRequestBody fields init chunks = accumulateBody 0 init chunks)
    ∧ (∀ fields v n init chunks, dictLookup fields "Content-Length" = some v →
        pyIntDec v = some n →
        getRequestBody fields init chunks = accumulateBody n init chunks)
    ∧ (∀ (n : Int) (init : String) (chunks : List String) (res : String),
        accumulateBody n init chunks = Except.ok res →
        n ≤ (res.length : Int)
        ∧ ∃ k, k ≤ chunks.length
            ∧ res = init ++ joinAll (chunks.take k)
            ∧ ∀ j, j < k → (((init ++ joinAll (chunks.take j)).length : Nat) : Int) < n) := by
  refine ⟨?_, ?_, ?_⟩
  · intro fields init chunks h
    simp [getRequestBody, h]
  · intro fields v n init chunks h hv
    simp [getRequestBody, h, hv]
  · intro n init chunks
    induction chunks generalizing init with
    | nil =>
      intro res h
      by_cases hlt : (init.length : Int) < n
      · simp [accumulateBody, hlt] at h
      · simp [accumulateBody, hlt] at h
        subst h
        refine ⟨by omega, 0, Nat.zero_le _, ?_, ?_⟩
        · simp [joinAll, String.append_empty]
        · intro j hj; omega
    | cons c cs ih =>
      intro res h
      by_cases hlt : (init.length : Int) < n
      · rw [show accumulateBody n init (c :: cs) = accumulateBody n (init ++ c) cs by
            simp [accumulateBody, hlt]] at h
        obtain ⟨hn, k, hk, hres, hmin⟩ := ih (init ++ c) res h
        refine ⟨hn, k + 1, Nat.succ_le_succ hk, ?_, ?_⟩
        · rw [hres, List.take_succ_cons]
          show init ++ c ++ joinAll (cs.take k) = init ++ (c ++ joinAll (cs.take k))
          cases init; cases c
          exact congrArg String.mk (by simp)
        · intro j hj
          cases j with
          | zero => simpa [joinAll, String.append_empty] using hlt
          | succ j =>
            have := hmin j (Nat.lt_of_succ_lt_succ hj)
            rw [List.take_succ_cons]
            have hassoc : init ++ (c ++ joinAll (cs.take j)) = init ++ c ++ joinAll (cs.take j) := by
              cases init; cases c
              exact congrArg String.mk (by simp)
            show (((init ++ joinAll (c :: cs.take j)).length : Nat) : Int) < n
            have hja : joinAll (c :: cs.take j) = c ++ joinAll (cs.take j) := rfl
            rw [hja, hassoc]
            exact this
      · simp [accumulateBody, hlt] at h
        subst h
        refine ⟨by omega, 0, Nat.zero_le _, ?_, ?_⟩
        · simp [joinAll, String.append_empty]
        · intro j hj; omega

/-- Witness for C7 at the spec's own scenario: a body declared as 40 bytes
delivered in two 20-byte reads is reassembled into the full 40-byte body,
which consumed exactly the two chunks. -/
theorem request_body_reassembly_witness :
    accumulateBody 40 "" ["aaaaaaaaaaaaaaaaaaaa", "bbbbbbbbbbbbbbbbbbbb"] =
        Except.ok "aaaaaaaaaaaaaaaaaaaabbbbbbbbbbbbbbbbbbbb"
      ∧ ((40 : Int) ≤ (("aaaaaaaaaaaaaaaaaaaabbbbbbbbbbbbbbbbbbbb" : String).length : Int)
        ∧ ∃ k, k ≤ (["aaaaaaaaaaaaaaaaaaaa", "bbbbbbbbbbbbbbbbbbbb"] : List String).length
            ∧ ("aaaaaaaaaaaaaaaaaaaabbbbbbbbbbbbbbbbbbbb" : String) =
                "" ++ joinAll ((["aaaaaaaaaaaaaaaaaaaa", "bbbbbbbbbbbbbbbbbbbb"] : List String).take k)
            ∧ ∀ j, j < k →
                ((((("" : String) ++ joinAll ((["aaaaaaaaaaaaaaaaaaaa", "bbbbbbbbbbbbbbbbbbbb"] : List String).take j)).length : Nat) : Int) < 40)) :=
  ⟨by decide,
    request_body_reassembly.2.2 40 "" ["aaaaaaaaaaaaaaaaaaaa", "bbbbbbbbbbbbbbbbbbbb"]
      "aaaaaaaaaaaaaaaaaaaabbbbbbbbbbbbbbbbbbbb" (by decide)⟩

/-- A character other than `%` is copied and the scan continues, whatever
follows it. -/
theorem scanDecode_cons_ne (c : Char) (rest : List Char) (h : c ≠ '%') :
    scanDecode (c :: rest) = c :: scanDecode rest := by
  match rest with
  | [] => rfl
  | [a] => rfl
  | a :: b :: t => simp [scanDecode, h]

/-- At a `%` with two following characters that decode, the decoded character
is emitted and the scan advances by 3. -/
theorem scanDecode_pct_some (a b ch : Char) (rest : List Char)
    (h : decodeHexPair a b = some ch) :
    scanDecode ('%' :: a :: b :: rest) = ch :: scanDecode rest := by
  simp [scanDecode, h]

/-- At a `%` with two following characters that do not decode, the `%` is
emitted literally and the scan advances by 1. -/
theorem scanDecode_pct_none (a b : Char) (rest : List Char)
    (h : decodeHexPair a b = none) :
    scanDecode ('%' :: a :: b :: rest) = '%' :: scanDecode (a :: b :: rest) := by
  simp [scanDecode, h]

/-- The spec's positional scan agrees with the source's structural scan from
any index, provided the fuel covers the remaining characters. -/
theorem specDecodeStep_drop (l : List Char) :
    ∀ fuel i, l.length - i ≤ fuel →
      specDecodeStep decodeHexPair l i fuel = scanDecode (l.drop i) := by
  intro fuel
  induction fuel with
  | zero =>
    intro i hi
    rw [List.drop_eq_nil_of_le (by omega)]
    rfl
  | succ fuel ih =>
    intro i hi
    by_cases hlen : i < l.length
    · have hdrop : l.drop i = l[i] :: l.drop (i + 1) := List.drop_eq_getElem_cons hlen
      have hgetD : l.getD i ' ' = l[i] := List.getD_eq_getElem l ' ' hlen
      by_cases hc : l[i] = '%' ∧ i + 2 < l.length
      · obtain ⟨hc1, hc2⟩ := hc
        have h1 : i + 1 < l.length := by omega
        have hd1 : l.drop (i + 1) = l[i + 1] :: l.drop (i + 2) := List.drop_eq_getElem_cons h1
        have hd2 : l.drop (i + 2) = l[i + 2] :: l.drop (i + 3) := List.drop_eq_getElem_cons hc2
        have hg1 : l.getD (i + 1) ' ' = l[i + 1] := List.getD_eq_getElem l ' ' h1
        have hg2 : l.getD (i + 2) ' ' = l[i + 2] := List.getD_eq_getElem l ' ' hc2
        rw [hdrop, hd1, hd2, hc1]
        cases hp : decodeHexPair (l[i + 1]) (l[i + 2]) with
        | some ch =>
          rw [scanDecode_pct_some _ _ _ _ hp, ← ih (i + 3) (by omega)]
          simp only [specDecodeStep]
          rw [if_pos hlen, if_pos ⟨by rw [hgetD, hc1], hc2⟩, hg1, hg2, hp]
        | none =>
          rw [scanDecode_pct_none _ _ _ hp, ← hd2, ← hd1, ← ih (i + 1) (by omega)]
          simp only [specDecodeStep]
          rw [if_pos hlen, if_pos ⟨by rw [hgetD, hc1], hc2⟩, hg1, hg2, hp, hgetD, hc1]
      · have hstep : specDecodeStep decodeHexPair l i (fuel + 1) =
            l[i] :: specDecodeStep decodeHexPair l (i + 1) fuel := by
          simp only [specDecodeStep]
          rw [if_pos hlen, if_neg (by rw [hgetD]; exact hc), hgetD]
        rw [hstep, ih (i + 1) (by omega), hdrop]
        by_cases hpct : l[i] = '%'
        · have hshort : l.length ≤ i + 2 := by
            by_contra hgt
            exact hc ⟨hpct, by omega⟩
          have hlen1 : (l.drop (i + 1)).length ≤ 1 := by
            rw [List.length_drop]; omega
          rw [hpct]
          cases hld : l.drop (i + 1) with
          | nil => rfl
          | cons a t =>
            cases t with
            | nil => rfl
            | cons b t2 => rw [hld] at hlen1; simp at hlen1
        · rw [scanDecode_cons_ne _ _ hpct]
    · rw [List.drop_eq_nil_of_le (by omega)]
      simp only [specDecodeStep]
      rw [if_neg hlen]
      rfl

/-- Claim C6 (amended): `__urlDecode` first replaces every `+` with a space,
then scans left to right exactly as the spec describes, except that "the two
characters parse as a hexadecimal byte" means Python's `int(·, 16)` succeeds
with a non-negative value — which accepts not only two hex digits but also a
single hex digit padded with whitespace (a space can arise from the `+`
replacement) or preceded by a `+`/`-` sign, a negative value falling back to
the literal-`%` path.  With that parse, the positional algorithm of the spec
computes `urlDecode` on every input string. -/
theorem url_decode_spec_scan (s : String) :
    urlDecode s = specDecodeWith decodeHexPair s := by
  obtain ⟨l⟩ := s
  exact congrArg String.mk
    (specDecodeStep_drop (l.map plusToSpace) (l.map plusToSpace).length 0
      (by omega)).symm

/-- Counterexample for C6 as stated: on `"%+f"` the `+` first becomes a space,
and Python's `int(" f", 16)` succeeds (whitespace is stripped), so the source
decodes to the single character `0x0F`; the spec's strict reading ("two more
characters that parse as a hexadecimal byte", i.e. two hex digits) would pass
the `%` through literally and produce `"% f"`. -/
theorem url_decode_strict_counterexample :
    urlDecode "%+f" = "\x0F"
      ∧ specDecodeWith strictHexPair "%+f" = "% f"
      ∧ urlDecode "%+f" ≠ specDecodeWith strictHexPair "%+f" :=
  ⟨by decide, by decide, by decide⟩

/-- Every printable single-byte ASCII character (0x20 to 0x7E) encodes to a
unit that the decoder maps back to the character: either it passes through
unchanged (and is not `%`), or it becomes a `%XX` triple whose digits
`decodeHexPair` decodes back to it.  Checked exhaustively over the range. -/
theorem encGood_all (c : Char) (h1 : 32 ≤ c.toNat) (h2 : c.toNat ≤ 126) :
    encGood c := by
  have key : ∀ n, n < 127 → 32 ≤ n → encGood (Char.ofNat n) := by decide
  have := key c.toNat (by omega) h1
  rwa [Char.ofNat_toNat] at this

/-- Round trip on character lists: scanning the `+`-replaced encoding of a
printable-ASCII list returns the list. -/
theorem scan_encode_list :
    ∀ l : List Char, (∀ c ∈ l, 32 ≤ c.toNat ∧ c.toNat ≤ 126) →
      scanDecode (((l.map encodeChar).flatten).map plusToSpace) = l := by
  intro l hl
  induction l with
  | nil => rfl
  | cons c rest ih =>
    have hc := hl c (List.mem_cons_self c rest)
    have hg := encGood_all c hc.1 hc.2
    have hrest := ih (fun d hd => hl d (List.mem_cons_of_mem c hd))
    simp only [List.map_cons, List.flatten_cons, List.map_append]
    cases hg with
    | inl h =>
      obtain ⟨hu, hne⟩ := h
      have hu2 : (encodeChar c).map plusToSpace = [c] := hu
      rw [hu2, List.singleton_append, scanDecode_cons_ne c _ hne, hrest]
    | inr h =>
      obtain ⟨hu, hdec⟩ := h
      have hu2 : (encodeChar c).map plusToSpace =
          ['%', toHexDigit (c.toNat / 16), toHexDigit (c.toNat % 16)] := hu
      rw [hu2, List.cons_append, List.cons_append, List.cons_append,
        List.nil_append, scanDecode_pct_some _ _ _ _ hdec, hrest]

/-- Claim C9: decoding the standard `application/x-www-form-urlencoded`
percent-encoding of a string of printable single-byte ASCII characters
(including `+`, `%`, `&`, `=`) with the server's `__urlDecode` yields the
string again. -/
theorem url_decode_encode_roundtrip (s : String)
    (h : ∀ c ∈ s.data, 32 ≤ c.toNat ∧ c.toNat ≤ 126) :
    urlDecode (formEncode s) = s := by
  obtain ⟨l⟩ := s
  exact congrArg String.mk (scan_encode_list l h)

/-- Witness for C9 on a string exercising space, `+`, `%`, `&` and `=`. -/
theorem url_decode_encode_roundtrip_witness :
    (∀ c ∈ ("my ssid+100% &=ok" : String).data, 32 ≤ c.toNat ∧ c.toNat ≤ 126)
      ∧ urlDecode (formEncode "my ssid+100% &=ok") = "my ssid+100% &=ok" :=
  ⟨by decide, url_decode_encode_roundtrip "my ssid+100% &=ok" (by decide)⟩

/-- Claim C5 (amended): for an empty `POST` body, and for every decodable body
(one where each `&`-separated token contains `=`, so that the dict
comprehension does not raise), `__parseCredentials` applies exactly the four
checks in order — empty body, missing `password`/`ssid` key, empty password
value, empty ssid value — each rejection sending its own `400` response and
returning `None`, and only when all four pass sending `200 OK` and returning
the parsed map; the four rejection responses are pairwise distinct. -/
theorem parse_credentials_four_checks :
    parseCredentials ERROR_PAGE "" =
        Except.ok ([badRequestResponse ERROR_PAGE (some MSG_EMPTY_BODY)], none)
    ∧ (∀ body d, body ≠ "" → decodeParams body = Except.ok d →
        parseCredentials ERROR_PAGE body =
          (if dictLookup d "password" = none ∨ dictLookup d "ssid" = none then
            Except.ok ([badRequestResponse ERROR_PAGE (some MSG_MISSING)], none)
          else if dictLookup d "password" = some "" then
            Except.ok ([badRequestResponse ERROR_PAGE (some MSG_EMPTY_PASSWORD)], none)
          else if dictLookup d "ssid" = some "" then
            Except.ok ([badRequestResponse ERROR_PAGE (some MSG_EMPTY_SSID)], none)
          else Except.ok ([ok200], some d)))
    ∧ (badRequestResponse ERROR_PAGE (some MSG_EMPTY_BODY) ≠
          badRequestResponse ERROR_PAGE (some MSG_MISSING)
      ∧ badRequestResponse ERROR_PAGE (some MSG_EMPTY_BODY) ≠
          badRequestResponse ERROR_PAGE (some MSG_EMPTY_PASSWORD)
      ∧ badRequestResponse ERROR_PAGE (some MSG_EMPTY_BODY) ≠
          badRequestResponse ERROR_PAGE (some MSG_EMPTY_SSID)
      ∧ badRequestResponse ERROR_PAGE (some MSG_MISSING) ≠
          badRequestResponse ERROR_PAGE (some MSG_EMPTY_PASSWORD)
      ∧ badRequestResponse ERROR_PAGE (some MSG_MISSING) ≠
          badRequestResponse ERROR_PAGE (some MSG_EMPTY_SSID)
      ∧ badRequestResponse ERROR_PAGE (some MSG_EMPTY_PASSWORD) ≠
          badRequestResponse ERROR_PAGE (some MSG_EMPTY_SSID)) := by
  refine ⟨by decide, ?_, by decide⟩
  intro body d hne hd
  unfold parseCredentials
  rw [if_neg hne, hd]

/-- Witness for C5 at the spec's own scenario: a `POST` body with an empty
`ssid` and a non-empty password is rejected by the fourth check with a `400`
response and no credentials. -/
theorem parse_credentials_four_checks_witness :
    parseCredentials ERROR_PAGE "ssid=&password=secret123" =
      Except.ok ([badRequestResponse ERROR_PAGE (some MSG_EMPTY_SSID)], none) := by
  have h := parse_credentials_four_checks.2.1 "ssid=&password=secret123"
    [("ssid", ""), ("password", "secret123")] (by decide) (by decide)
  exact h.trans (by decide)

/-- Counterexample for C5 as stated: the body `"ssid"` (a token with no `=`)
is non-empty, but instead of the second check rejecting it with a `400`, the
dict comprehension's `param[1]` subscript raises `IndexError`, which escapes
`__parseCredentials`. -/
theorem parse_credentials_crash :
    parseCredentials ERROR_PAGE "ssid" = Except.error PyErr.indexError := by decide

/-- Claim C2 (amended): whenever a request parses (the raw bytes contain the
blank-line separator, the header lines and request line are well-formed, and
the declared body arrives) and it is malformed in one of the spec's three
senses — unsupported method, empty `POST` body, or a decodable `POST` body
with missing or empty required fields — the server answers exactly one `400`
response on that connection, returns no credentials, and the accept loop
continues with the next connection; nothing escapes to the caller. -/
theorem gather_malformed_handled (page errPage : String) (chunks : List String)
    (headers : ReqHeaders) (body : String)
    (hparse : parseRequest chunks = Except.ok (headers, body))
    (hmal : malformedKind headers body) :
    ∃ sends msg,
      handleConnection page errPage chunks = Except.ok (sends, none)
      ∧ sends = [badRequestResponse errPage (some msg)]
      ∧ ∀ cs, gatherCredentials page errPage (chunks :: cs) =
          match gatherCredentials page errPage cs with
          | Except.error e => Except.error e
          | Except.ok pr => Except.ok (sends :: pr.1, pr.2) := by
  have hcont : ∀ sends, handleConnection page errPage chunks = Except.ok (sends, none) →
      ∀ cs, gatherCredentials page errPage (chunks :: cs) =
        match gatherCredentials page errPage cs with
        | Except.error e => Except.error e
        | Except.ok pr => Except.ok (sends :: pr.1, pr.2) := by
    intro sends hh cs
    simp only [gatherCredentials]
    rw [hh]
    cases hres : gatherCredentials page errPage cs with
    | error e => rfl
    | ok pr => rfl
  rcases hmal with ⟨hm1, hm2⟩ | ⟨hm1, hm2⟩ | ⟨hm1, d, hd, hcond⟩
  · have hh : handleConnection page errPage chunks =
        Except.ok ([badRequestResponse errPage
          (some ("Got unsupported HTTP method: " ++ headers.method))], none) := by
      simp only [handleConnection]
      rw [hparse]
      simp [hm1, hm2]
    exact ⟨_, _, hh, rfl, hcont _ hh⟩
  · subst hm2
    have hh : handleConnection page errPage chunks =
        Except.ok ([badRequestResponse errPage (some MSG_EMPTY_BODY)], none) := by
      simp only [handleConnection]
      rw [hparse]
      simp [hm1, parseCredentials]
    exact ⟨_, _, hh, rfl, hcont _ hh⟩
  · have hbne : body ≠ "" := by
      intro hb
      rw [hb, show decodeParams "" = Except.error PyErr.indexError from by decide] at hd
      simp at hd
    have hpc : parseCredentials errPage body =
        (if dictLookup d "password" = none ∨ dictLookup d "ssid" = none then
          Except.ok ([badRequestResponse errPage (some MSG_MISSING)], none)
        else if dictLookup d "password" = some "" then
          Except.ok ([badRequestResponse errPage (some MSG_EMPTY_PASSWORD)], none)
        else if dictLookup d "ssid" = some "" then
          Except.ok ([badRequestResponse errPage (some MSG_EMPTY_SSID)], none)
        else Except.ok ([ok200], some d)) := by
      unfold parseCredentials
      rw [if_neg hbne, hd]
    have hdisp : handleConnection page errPage chunks = parseCredentials errPage body := by
      simp only [handleConnection]
      rw [hparse]
      simp [hm1]
    by_cases h1 : dictLookup d "password" = none ∨ dictLookup d "ssid" = none
    · have hh : handleConnection page errPage chunks =
          Except.ok ([badRequestResponse errPage (some MSG_MISSING)], none) := by
        rw [hdisp, hpc, if_pos h1]
      exact ⟨_, _, hh, rfl, hcont _ hh⟩
    · by_cases h2 : dictLookup d "password" = some ""
      · have hh : handleConnection page errPage chunks =
            Except.ok ([badRequestResponse errPage (some MSG_EMPTY_PASSWORD)], none) := by
          rw [hdisp, hpc, if_neg h1, if_pos h2]
        exact ⟨_, _, hh, rfl, hcont _ hh⟩
      · by_cases h3 : dictLookup d "ssid" = some ""
        · have hh : handleConnection page errPage chunks =
              Except.ok ([badRequestResponse errPage (some MSG_EMPTY_SSID)], none) := by
            rw [hdisp, hpc, if_neg h1, if_neg h2, if_pos h3]
          exact ⟨_, _, hh, rfl, hcont _ hh⟩
        · exact absurd hcond (by tauto)

/-- Witness for C2: a `PUT` request is answered with the unsupported-method
`400` and the loop continues with the remaining connections. -/
theorem gather_malformed_handled_witness :
    ∃ sends msg,
      handleConnection "PAGE" ERROR_PAGE ["PUT / HTTP/1.0\r\n\r\n"] = Except.ok (sends, none)
      ∧ sends = [badRequestResponse ERROR_PAGE (some msg)]
      ∧ ∀ cs, gatherCredentials "PAGE" ERROR_PAGE (["PUT / HTTP/1.0\r\n\r\n"] :: cs) =
          match gatherCredentials "PAGE" ERROR_PAGE cs with
          | Except.error e => Except.error e
          | Except.ok pr => Except.ok (sends :: pr.1, pr.2) :=
  gather_malformed_handled "PAGE" ERROR_PAGE ["PUT / HTTP/1.0\r\n\r\n"]
    ⟨"PUT", "/", "HTTP/1.0", []⟩ "" (by decide) (Or.inl ⟨by decide, by decide⟩)

/-- Counterexample for C2 as stated: a well-framed `POST` whose body is the
single token `"ssid"` (so the required `password` field is certainly missing)
does not get a `400` answer — the dict comprehension raises `IndexError` and
the exception escapes `gatherCredentials` to its caller. -/
theorem gather_malformed_crash :
    gatherCredentials "PAGE" ERROR_PAGE
        [["POST / HTTP/1.0\r\nContent-Length:4\r\n\r\nssid"]] =
      Except.error PyErr.indexError := by decide
